import Mathlib

/-! Shallow embedding of the winit X11 integration-test module
    (src/it/x11-module/src: main.c, input.c, video.c, winit.h).

    Pure state is made explicit: the input registry (`devices`, the static
    `TOUCH_ID` and `next_input_id` counters), the video driver state
    (the two `DriverOutput` records and the RandR mode list), and the
    dispatcher `handle_message` over decoded messages.  A C assertion
    failure (process abort) is modelled as `none`; host-assigned
    identifiers (device ids, CRTC/output/mode ids) are parameters. -/

namespace Winit

/-- Numeric value of 2 to the 32nd, the modulus of uint32_t arithmetic. -/
def U32 : Nat := 4294967296

/-- Reduction of an integer into the int32_t range, two's complement:
    models the value produced by C 32-bit signed arithmetic. -/
def wrap32 (z : Int) : Int := (z + 2147483648) % 4294967296 - 2147483648

-- enum MessageType (main.c), values in declaration order starting at 0.
def MT_NONE : Nat := 0
def MT_CREATE_KEYBOARD : Nat := 1
def MT_CREATE_KEYBOARD_REPLY : Nat := 2
def MT_KEY_PRESS : Nat := 3
def MT_KEY_RELEASE : Nat := 4
def MT_REMOVE_DEVICE : Nat := 5
def MT_ENABLE_SECOND_MONITOR : Nat := 6
def MT_ENABLE_SECOND_MONITOR_REPLY : Nat := 7
def MT_GET_VIDEO_INFO : Nat := 8
def MT_GET_VIDEO_INFO_REPLY : Nat := 9
def MT_CREATE_MOUSE : Nat := 10
def MT_CREATE_MOUSE_REPLY : Nat := 11
def MT_BUTTON_PRESS : Nat := 12
def MT_BUTTON_RELEASE : Nat := 13
def MT_MOUSE_MOVE : Nat := 14
def MT_MOUSE_SCROLL : Nat := 15
def MT_CREATE_TOUCH : Nat := 16
def MT_CREATE_TOUCH_REPLY : Nat := 17
def MT_TOUCH_DOWN : Nat := 18
def MT_TOUCH_DOWN_REPLY : Nat := 19
def MT_TOUCH_UP : Nat := 20
def MT_TOUCH_MOVE : Nat := 21

/-- sizeof(Message): the request union's largest member is touch_move,
    five 32-bit fields. -/
def sizeof_Message : Nat := 20

/-- sizeof(GetVideoInfoReply): six 32-bit fields. -/
def sizeof_GetVideoInfoReply : Nat := 24

/-- One valuator slot of a ValuatorMask: either not set, set by
    valuator_mask_set, or set by valuator_mask_set_unaccelerated
    (which records an accelerated and an unaccelerated value). -/
inductive Slot
  | unset : Slot
  | set (value : Int) : Slot
  | setUnaccel (value unacc : Int) : Slot
deriving DecidableEq

/-- The 4-slot valuator mask allocated by valuator_mask_new(4) in
    init_pointer (input.c). -/
structure ValuatorMask where
  s0 : Slot
  s1 : Slot
  s2 : Slot
  s3 : Slot
deriving DecidableEq

/-- valuator_mask_zero: clears every slot. -/
def valuator_mask_zero : ValuatorMask := ⟨.unset, .unset, .unset, .unset⟩

/-- valuator_mask_set on slot i. -/
def valuator_mask_set (m : ValuatorMask) (i : Nat) (v : Int) : ValuatorMask :=
  if i = 0 then { m with s0 := .set v }
  else if i = 1 then { m with s1 := .set v }
  else if i = 2 then { m with s2 := .set v }
  else if i = 3 then { m with s3 := .set v }
  else m

/-- valuator_mask_set_unaccelerated on slot i. -/
def valuator_mask_set_unaccelerated (m : ValuatorMask) (i : Nat) (v u : Int) :
    ValuatorMask :=
  if i = 0 then { m with s0 := .setUnaccel v u }
  else if i = 1 then { m with s1 := .setUnaccel v u }
  else if i = 2 then { m with s2 := .setUnaccel v u }
  else if i = 3 then { m with s3 := .setUnaccel v u }
  else m

/-- The Type enum of input.c: TyKeyboard, TyMouse, TyTouch. -/
inductive DevType
  | keyboard
  | mouse
  | touch
deriving DecidableEq

/-- One node of the Device linked list of input.c.  `id` is the
    host-assigned dev->id; `mask` is the per-device valuator mask,
    allocated at DEVICE_INIT for pointer-class devices and left NULL
    for keyboards. -/
structure Device where
  id : Nat
  type : DevType
  mask : Option ValuatorMask
deriving DecidableEq

/-- The process-global mutable input state of input.c: the `devices`
    list, the static TOUCH_ID counter of input_touch_down (uint32_t,
    starts at 1), the static next_input_id counter of input_new, and the
    set of ids whose DeleteInputDeviceRequest was issued but whose
    un_init teardown callback has not yet run. -/
structure InputState where
  devices : List Device
  touchCounter : Nat
  nextInputId : Nat
  pending : List Nat
deriving DecidableEq

/-- Touch event kinds passed to xf86PostTouchEvent. -/
inductive TouchKind
  | xiTouchBegin
  | xiTouchUpdate
  | xiTouchEnd
deriving DecidableEq

/-- An event handed to the host delivery functions (xf86PostKeyboardEvent,
    xf86PostButtonEvent, xf86PostMotionEventM, xf86PostTouchEvent),
    identified by the device id it is posted for. -/
inductive HostEvent
  | keyboardEvent (dev : Nat) (keycode : Nat) (down : Bool)
  | buttonEvent (dev : Nat) (button : Nat) (down : Bool)
  | motionEvent (dev : Nat) (mask : ValuatorMask)
  | touchEvent (dev : Nat) (touchId : Nat) (kind : TouchKind)
      (mask : Option ValuatorMask)
deriving DecidableEq

/-- MIN_KEYCODE of input.c. -/
def MIN_KEYCODE : Nat := 8

/-- get_device (input.c): linear scan of the device list by dev->id.
    The source asserts the device was found; `none` models that fatal
    assertion. -/
def get_device (s : InputState) (id : Nat) : Option Device :=
  s.devices.find? (fun d => d.id == id)

/-- get_keyboard: get_device plus the fatal assert(device->type == TyKeyboard). -/
def get_keyboard (s : InputState) (id : Nat) : Option Device :=
  match get_device s id with
  | some d => if d.type = .keyboard then some d else none
  | none => none

/-- get_mouse: get_device plus the fatal assert(device->type == TyMouse). -/
def get_mouse (s : InputState) (id : Nat) : Option Device :=
  match get_device s id with
  | some d => if d.type = .mouse then some d else none
  | none => none

/-- get_touch: get_device plus the fatal assert(device->type == TyTouch). -/
def get_touch (s : InputState) (id : Nat) : Option Device :=
  match get_device s id with
  | some d => if d.type = .touch then some d else none
  | none => none

/-- Stores a freshly written mask into the device node get_device would
    return (the first list entry with this id), as the C code mutates
    device->mask in place. -/
def set_device_mask : List Device → Nat → ValuatorMask → List Device
  | [], _, _ => []
  | d :: rest, id, m =>
    if d.id = id then { d with mask := some m } :: rest
    else d :: set_device_mask rest id m

/-- input_new (input.c): the host accepts NewInputDeviceRequest, runs
    pre_init (append the node at the list tail) and DEVICE_INIT
    (allocate the 4-slot mask for pointer-class devices), and assigns
    `hostId` as dev->id, which is returned. -/
def input_new (s : InputState) (t : DevType) (hostId : Nat) : Nat × InputState :=
  let mask : Option ValuatorMask :=
    if t = .keyboard then none else some valuator_mask_zero
  (hostId,
   { s with
     nextInputId := s.nextInputId + 1,
     devices := s.devices ++ [⟨hostId, t, mask⟩] })

/-- input_key_press: fatal lookup, then xf86PostKeyboardEvent with
    key + MIN_KEYCODE, down. -/
def input_key_press (s : InputState) (keyboard key : Nat) : Option HostEvent :=
  (get_keyboard s keyboard).map
    (fun _ => .keyboardEvent keyboard (key + MIN_KEYCODE) true)

/-- input_key_release: as input_key_press with the up flag. -/
def input_key_release (s : InputState) (keyboard key : Nat) : Option HostEvent :=
  (get_keyboard s keyboard).map
    (fun _ => .keyboardEvent keyboard (key + MIN_KEYCODE) false)

/-- input_button_press: fatal lookup, then xf86PostButtonEvent down. -/
def input_button_press (s : InputState) (mouse button : Nat) : Option HostEvent :=
  (get_mouse s mouse).map (fun _ => .buttonEvent mouse button true)

/-- input_button_release: fatal lookup, then xf86PostButtonEvent up. -/
def input_button_release (s : InputState) (mouse button : Nat) : Option HostEvent :=
  (get_mouse s mouse).map (fun _ => .buttonEvent mouse button false)

/-- input_mouse_move (input.c): zero the mask, set slots 0 and 1 with
    valuator_mask_set_unaccelerated(mask, i, delta, delta), post one
    motion event carrying the mask. -/
def input_mouse_move (s : InputState) (mouse : Nat) (dx dy : Int) :
    Option (InputState × HostEvent) :=
  (get_mouse s mouse).map (fun _ =>
    let m := valuator_mask_set_unaccelerated
      (valuator_mask_set_unaccelerated valuator_mask_zero 0 dx dx) 1 dy dy
    ({ s with devices := set_device_mask s.devices mouse m },
     .motionEvent mouse m))

/-- input_mouse_scroll (input.c): zero the mask; if dx is nonzero set
    slot 2 to the 32-bit product dx*120; if dy is nonzero set slot 3 to
    the 32-bit product dy*120; post one motion event carrying the mask. -/
def input_mouse_scroll (s : InputState) (mouse : Nat) (dx dy : Int) :
    Option (InputState × HostEvent) :=
  (get_mouse s mouse).map (fun _ =>
    let m0 := valuator_mask_zero
    let m1 := if dx ≠ 0 then valuator_mask_set m0 2 (wrap32 (dx * 120)) else m0
    let m2 := if dy ≠ 0 then valuator_mask_set m1 3 (wrap32 (dy * 120)) else m1
    ({ s with devices := set_device_mask s.devices mouse m2 },
     .motionEvent mouse m2))

/-- input_touch_down (input.c): fatal lookup, zero the mask, set absolute
    slots 0/1, allocate the next TOUCH_ID value (uint32_t post-increment),
    post a TouchBegin event, return the new contact id. -/
def input_touch_down (s : InputState) (touch : Nat) (x y : Int) :
    Option (Nat × InputState × HostEvent) :=
  (get_touch s touch).map (fun _ =>
    let m := valuator_mask_set (valuator_mask_set valuator_mask_zero 0 x) 1 y
    let tid := s.touchCounter
    (tid,
     { s with
       devices := set_device_mask s.devices touch m,
       touchCounter := (s.touchCounter + 1) % U32 },
     .touchEvent touch tid .xiTouchBegin (some m)))

/-- input_touch_move: fatal lookup, set absolute slots 0/1, post a
    TouchUpdate event for the given contact id. -/
def input_touch_move (s : InputState) (touch touchId : Nat) (x y : Int) :
    Option (InputState × HostEvent) :=
  (get_touch s touch).map (fun _ =>
    let m := valuator_mask_set (valuator_mask_set valuator_mask_zero 0 x) 1 y
    ({ s with devices := set_device_mask s.devices touch m },
     .touchEvent touch touchId .xiTouchUpdate (some m)))

/-- input_touch_up: fatal lookup, post a TouchEnd event with a NULL mask. -/
def input_touch_up (s : InputState) (touch touchId : Nat) : Option HostEvent :=
  (get_touch s touch).map
    (fun _ => .touchEvent touch touchId .xiTouchEnd none)

/-- input_remove_device (input.c): fatal lookup, then
    DeleteInputDeviceRequest.  The host tears the device down later via
    un_init; the registry itself is not modified here, only a teardown
    becomes pending. -/
def input_remove_device (s : InputState) (id : Nat) : Option InputState :=
  (get_device s id).map (fun _ => { s with pending := id :: s.pending })

/-- Removes the first device node with the given id, as un_init unlinks
    the node the teardown was requested for. -/
def remove_device_entry : List Device → Nat → List Device
  | [], _ => []
  | d :: rest, id => if d.id = id then rest else d :: remove_device_entry rest id

/-- un_init (input.c): the host teardown callback for a device whose
    DeleteInputDeviceRequest was issued; unlinks the node and frees the
    mask. -/
def un_init (s : InputState) (id : Nat) : InputState :=
  if id ∈ s.pending then
    { s with
      devices := remove_device_entry s.devices id,
      pending := s.pending.erase id }
  else s

/-- One virtual output of video.c: the connected flag, the host-assigned
    RandR CRTC and output ids (crtc->randr_crtc->id,
    output->randr_output->id), and the reported physical size in mm. -/
structure DriverOutput where
  connected : Bool
  crtc_id : Nat
  output_id : Nat
  mm_width : Nat
  mm_height : Nat
deriving DecidableEq

/-- One RandR mode of output 0 as read by video_get_info:
    mode->mode.width and mode->mode.id. -/
structure RRMode where
  width : Nat
  id : Nat
deriving DecidableEq

/-- The driver singleton of video.c restricted to what the protocol
    observes: the two outputs (NUM_OUTPUTS = 2) and output 0's RandR
    mode list. -/
structure VideoState where
  output0 : DriverOutput
  output1 : DriverOutput
  modes : List RRMode
deriving DecidableEq

/-- screen_init (video.c): output i starts with connected = (i == 0) and
    mm size 2000 x 1000; pre_init configured exactly the 1024x768 and
    800x600 modes, so output 0's RandR mode list holds one 1024-wide and
    one 800-wide mode.  All identifiers are host-assigned parameters. -/
def screen_init (crtc0 crtc1 out0 out1 mode1_id mode2_id : Nat) : VideoState :=
  { output0 := ⟨true, crtc0, out0, 2000, 1000⟩,
    output1 := ⟨false, crtc1, out1, 2000, 1000⟩,
    modes := [⟨1024, mode1_id⟩, ⟨800, mode2_id⟩] }

/-- video_connect_second_monitor (video.c): outputs[1].connected is
    assigned from the uint32_t argument (C bool conversion: nonzero is
    true), and outputs[1]'s mm size is set to 20 x 20 unconditionally;
    then the host topology-changed notifications run. -/
def video_connect_second_monitor (v : VideoState) (connected : Nat) : VideoState :=
  { v with
    output1 := { v.output1 with
      connected := connected != 0,
      mm_width := 20,
      mm_height := 20 } }

/-- The mode-classification loop of video_get_info: a mode of width 1024
    overwrites the large id, any other mode overwrites the small id;
    both start from the caller's zero-initialized reply fields. -/
def classify_modes : List RRMode → Nat → Nat → Nat × Nat
  | [], small, large => (small, large)
  | m :: rest, small, large =>
    if m.width = 1024 then classify_modes rest small m.id
    else classify_modes rest m.id large

/-- video_get_info (video.c), in the order of its out-parameters:
    second_crtc, first_output, second_output, small_mode_id,
    large_mode_id. -/
def video_get_info (v : VideoState) : Nat × Nat × Nat × Nat × Nat :=
  let sl := classify_modes v.modes 0 0
  (v.output1.crtc_id, v.output0.output_id, v.output1.output_id, sl.1, sl.2)

/-- The GetVideoInfoReply struct of main.c, fields in declaration order. -/
structure GetVideoInfoReply where
  type : Nat
  second_crtc : Nat
  second_output : Nat
  first_output : Nat
  large_mode_id : Nat
  small_mode_id : Nat
deriving DecidableEq

/-- Byte layout of GetVideoInfoReply as written to the socket: the six
    32-bit words in struct declaration order. -/
def GetVideoInfoReply.serialize (r : GetVideoInfoReply) : List Nat :=
  [r.type, r.second_crtc, r.second_output, r.first_output,
   r.large_mode_id, r.small_mode_id]

/-- The claimed reply layout, following the specification's wire table
    order for GetVideoInfoReply: second_crtc, first_output,
    second_output, small_mode_id, large_mode_id after the tag.  Written
    from the spec (not the source) to be compared against the struct
    layout the source writes. -/
def specClaimedGetVideoInfoOrder (info : Nat × Nat × Nat × Nat × Nat) : List Nat :=
  [MT_GET_VIDEO_INFO_REPLY, info.1, info.2.1, info.2.2.1,
   info.2.2.2.1, info.2.2.2.2]

/-- A decoded request message (the Message union of main.c by tag). -/
inductive Msg
  | createKeyboard
  | createMouse
  | createTouch
  | keyPress (id key : Nat)
  | keyRelease (id key : Nat)
  | buttonPress (id button : Nat)
  | buttonRelease (id button : Nat)
  | mouseMove (id : Nat) (dx dy : Int)
  | mouseScroll (id : Nat) (dx dy : Int)
  | touchDown (id : Nat) (x y : Int)
  | touchMove (id touchId : Nat) (x y : Int)
  | touchUp (id touchId : Nat)
  | removeDevice (id : Nat)
  | enableSecondMonitor (enable : Nat)
  | getVideoInfo
deriving DecidableEq

/-- The whole mutable state the module owns. -/
structure SysState where
  input : InputState
  video : VideoState
deriving DecidableEq

/-- The observable result of one dispatched message: the new state, the
    events posted to the host, and the reply written to the socket as
    32-bit words. -/
structure StepOut where
  state : SysState
  events : List HostEvent
  reply : Option (List Nat)
deriving DecidableEq

/-- Wraps an input operation that posts one event and keeps the state. -/
def liftEvent (s : SysState) (e : Option HostEvent) : Option StepOut :=
  e.map (fun ev => ⟨s, [ev], none⟩)

/-- Wraps an input operation that posts one event and updates the input
    state. -/
def liftInput (s : SysState) (r : Option (InputState × HostEvent)) : Option StepOut :=
  r.map (fun x => ⟨{ s with input := x.1 }, [x.2], none⟩)

/-- handle_message (main.c) after a successful read of one decoded
    message.  `hostId` is the device id the host would assign for a
    create request.  The uint8_t narrowing of the key/button argument at
    the call boundary is the mod 256 reduction.  `none` is a fatal
    assertion inside the invoked operation. -/
def handle_message (s : SysState) (m : Msg) (hostId : Nat) : Option StepOut :=
  match m with
  | .createKeyboard =>
    let r := input_new s.input .keyboard hostId
    some ⟨{ s with input := r.2 }, [], some [MT_CREATE_KEYBOARD_REPLY, r.1]⟩
  | .createMouse =>
    let r := input_new s.input .mouse hostId
    some ⟨{ s with input := r.2 }, [], some [MT_CREATE_MOUSE_REPLY, r.1]⟩
  | .createTouch =>
    let r := input_new s.input .touch hostId
    some ⟨{ s with input := r.2 }, [], some [MT_CREATE_TOUCH_REPLY, r.1]⟩
  | .keyPress id key => liftEvent s (input_key_press s.input id (key % 256))
  | .keyRelease id key => liftEvent s (input_key_release s.input id (key % 256))
  | .buttonPress id b => liftEvent s (input_button_press s.input id (b % 256))
  | .buttonRelease id b => liftEvent s (input_button_release s.input id (b % 256))
  | .mouseMove id dx dy => liftInput s (input_mouse_move s.input id dx dy)
  | .mouseScroll id dx dy => liftInput s (input_mouse_scroll s.input id dx dy)
  | .touchDown id x y =>
    (input_touch_down s.input id x y).map (fun r =>
      ⟨{ s with input := r.2.1 }, [r.2.2], some [MT_TOUCH_DOWN_REPLY, r.1]⟩)
  | .touchMove id tid x y => liftInput s (input_touch_move s.input id tid x y)
  | .touchUp id tid => liftEvent s (input_touch_up s.input id tid)
  | .removeDevice id =>
    (input_remove_device s.input id).map (fun i => ⟨{ s with input := i }, [], none⟩)
  | .enableSecondMonitor enable =>
    some ⟨{ s with video := video_connect_second_monitor s.video enable }, [],
          some [MT_ENABLE_SECOND_MONITOR_REPLY, 0, 0, 0, 0]⟩
  | .getVideoInfo =>
    let info := video_get_info s.video
    let reply : GetVideoInfoReply :=
      { type := MT_GET_VIDEO_INFO_REPLY,
        second_crtc := info.1,
        first_output := info.2.1,
        second_output := info.2.2.1,
        small_mode_id := info.2.2.2.1,
        large_mode_id := info.2.2.2.2 }
    some ⟨s, [], some reply.serialize⟩

/-- handle_message including its socket I/O assertions: the source runs
    assert(read(fd, &message, sizeof(message)) > 0) before dispatching
    and assert(write(fd, &reply, sizeof(reply)) > 0) after building a
    reply.  `readRet` and `writeRet` are the raw return values of those
    calls; a failed assertion aborts the process (`none`). -/
def dispatch (s : SysState) (readRet : Int) (m : Msg) (hostId : Nat)
    (writeRet : Int) : Option StepOut :=
  if 0 < readRet then
    match handle_message s m hostId with
    | none => none
    | some out =>
      match out.reply with
      | none => some out
      | some _ => if 0 < writeRet then some out else none
  else none

/-- One external stimulus: either a protocol message (with the host's
    device id choice for creates) or the host running a pending un_init
    teardown callback. -/
inductive Cmd
  | msg (m : Msg) (hostId : Nat)
  | teardown (id : Nat)
deriving DecidableEq

/-- Applies one stimulus to the state. -/
def stepCmd (s : SysState) : Cmd → Option SysState
  | .msg m hostId => (handle_message s m hostId).map (fun out => out.state)
  | .teardown id => some { s with input := un_init s.input id }

/-- Runs a stimulus sequence; `none` once any step hits a fatal assertion. -/
def run : SysState → List Cmd → Option SysState
  | s, [] => some s
  | s, c :: rest => (stepCmd s c).bind (fun s' => run s' rest)

/-- The input state at module setup: no devices, TOUCH_ID = 1,
    next_input_id = 1, no pending teardowns. -/
def init_input : InputState := ⟨[], 1, 1, []⟩

/-- The module state right after video and input initialization, with
    the host-assigned identifiers as parameters. -/
def initState (crtc0 crtc1 out0 out1 mode1_id mode2_id : Nat) : SysState :=
  ⟨init_input, screen_init crtc0 crtc1 out0 out1 mode1_id mode2_id⟩

/-- Iterates input_touch_down n times, the device for step k chosen by
    `pick k`, with a fixed position. -/
def iterDowns (pick : Nat → Nat) (s : InputState) : Nat → Option InputState
  | 0 => some s
  | n + 1 =>
    match iterDowns pick s n with
    | none => none
    | some s' => (input_touch_down s' (pick n) 0 0).map (fun r => r.2.1)

/-- The contact id returned by the down call with index n (0-based) in
    the iteration of `iterDowns`. -/
def nthDownId (pick : Nat → Nat) (s : InputState) (n : Nat) : Option Nat :=
  match iterDowns pick s n with
  | none => none
  | some s' => (input_touch_down s' (pick n) 0 0).map (fun r => r.1)

/-- The valuator mask input_mouse_scroll leaves behind, as one record:
    slots 0/1 stay unset, slot 2 is the wrapped 32-bit product dx*120
    exactly when dx is nonzero, slot 3 likewise for dy. -/
def scrollMask (dx dy : Int) : ValuatorMask :=
  ⟨.unset, .unset,
   if dx = 0 then .unset else .set (wrap32 (dx * 120)),
   if dy = 0 then .unset else .set (wrap32 (dy * 120))⟩

/-- A small registry for concrete checks: a mouse (id 1), a touchscreen
    (id 2) and a keyboard (id 3). -/
def demoInput : InputState :=
  ⟨[⟨1, .mouse, some valuator_mask_zero⟩,
    ⟨2, .touch, some valuator_mask_zero⟩,
    ⟨3, .keyboard, none⟩], 1, 4, []⟩

/-- The mouse record of demoInput. -/
def demoMouse : Device := ⟨1, .mouse, some valuator_mask_zero⟩

/-- A concrete video state with distinct host identifiers. -/
def demoVideo : VideoState := screen_init 99 10 20 21 30 31

/-- A concrete full state combining demoInput and demoVideo. -/
def demoState : SysState := ⟨demoInput, demoVideo⟩

/-- A registry with two touchscreens (ids 1 and 2) and TOUCH_ID = 1. -/
def c4Input : InputState :=
  ⟨[⟨1, .touch, some valuator_mask_zero⟩,
    ⟨2, .touch, some valuator_mask_zero⟩], 1, 3, []⟩

/-- A fresh full state for trace-level checks. -/
def freshState : SysState := initState 99 10 20 21 30 31

/-- A demonstration trace touching both subsystems. -/
def c6Demo : List Cmd :=
  [.msg (.enableSecondMonitor 1) 0,
   .msg .createMouse 5,
   .msg (.mouseMove 5 3 (-4)) 0,
   .msg (.enableSecondMonitor 0) 0]

/-- The state freshState reaches after c6Demo. -/
def c6Final : SysState := (run freshState c6Demo).getD freshState

/-- C9: after EnableSecondMonitor(enable), output 1 is connected exactly
    when enable is nonzero (any nonzero value connects), its reported
    physical size is set to the 20 x 20 mm placeholder on every call,
    and output 0 is untouched. -/
theorem connect_second_monitor_effect (v : VideoState) (enable : Nat) :
    ((video_connect_second_monitor v enable).output1.connected = true ↔ enable ≠ 0)
    ∧ (video_connect_second_monitor v enable).output1.mm_width = 20
    ∧ (video_connect_second_monitor v enable).output1.mm_height = 20
    ∧ (video_connect_second_monitor v enable).output0 = v.output0 := by
  refine ⟨?_, rfl, rfl, rfl⟩
  simp [video_connect_second_monitor]

/-- C8: move(id, dx, dy) zeroes the 4-slot accumulator, stores the
    unaccelerated pairs (dx, dx) in slot 0 and (dy, dy) in slot 1 with
    slots 2 and 3 unset, and posts exactly one motion event carrying
    that accumulator. -/
theorem mouse_move_spec (s : InputState) (mouse : Nat) (dx dy : Int) (d : Device)
    (h : get_mouse s mouse = some d) :
    input_mouse_move s mouse dx dy =
      some ({ s with devices := (set_device_mask s.devices mouse
                ⟨.setUnaccel dx dx, .setUnaccel dy dy, .unset, .unset⟩) },
            .motionEvent mouse ⟨.setUnaccel dx dx, .setUnaccel dy dy, .unset, .unset⟩) := by
  unfold input_mouse_move
  rw [h]
  rfl

/-- Witness for C8: MouseMove(-3, 7) on the demo mouse reports exactly
    (-3,-3) in slot 0 and (7,7) in slot 1. -/
theorem mouse_move_spec_witness :
    get_mouse demoInput 1 = some demoMouse ∧
    input_mouse_move demoInput 1 (-3) 7 =
      some ({ demoInput with devices := (set_device_mask demoInput.devices 1
                ⟨.setUnaccel (-3) (-3), .setUnaccel 7 7, .unset, .unset⟩) },
            .motionEvent 1 ⟨.setUnaccel (-3) (-3), .setUnaccel 7 7, .unset, .unset⟩) :=
  ⟨by decide, mouse_move_spec demoInput 1 (-3) 7 demoMouse (by decide)⟩

/-- C10: MouseScroll(id, 0, 0) still posts exactly one motion event, and
    the accumulator it carries has no valuator set. -/
theorem mouse_scroll_zero_event (s : InputState) (mouse : Nat) (d : Device)
    (h : get_mouse s mouse = some d) :
    input_mouse_scroll s mouse 0 0 =
      some ({ s with devices := set_device_mask s.devices mouse valuator_mask_zero },
            .motionEvent mouse valuator_mask_zero) := by
  unfold input_mouse_scroll
  rw [h]
  rfl

/-- Witness for C10 on the demo mouse. -/
theorem mouse_scroll_zero_event_witness :
    get_mouse demoInput 1 = some demoMouse ∧
    input_mouse_scroll demoInput 1 0 0 =
      some ({ demoInput with devices := set_device_mask demoInput.devices 1 valuator_mask_zero },
            .motionEvent 1 valuator_mask_zero) :=
  ⟨by decide, mouse_scroll_zero_event demoInput 1 demoMouse (by decide)⟩

/-- C5 (amended): scroll(id, dx, dy) zeroes the accumulator, sets slot 2
    to the 32-bit two's-complement product dx*120 exactly when dx ≠ 0
    and slot 3 to the 32-bit product dy*120 exactly when dy ≠ 0, and
    posts one motion event carrying the accumulator. -/
theorem mouse_scroll_spec (s : InputState) (mouse : Nat) (dx dy : Int) (d : Device)
    (h : get_mouse s mouse = some d) :
    input_mouse_scroll s mouse dx dy =
      some ({ s with devices := set_device_mask s.devices mouse (scrollMask dx dy) },
            .motionEvent mouse (scrollMask dx dy)) := by
  unfold input_mouse_scroll scrollMask
  rw [h]
  rcases eq_or_ne dx 0 with h1 | h1 <;> rcases eq_or_ne dy 0 with h2 | h2 <;>
    simp [h1, h2, valuator_mask_set, valuator_mask_zero]

/-- Witness for C5: MouseScroll(0, 5) yields slot 3 = 600 with slot 2
    unset. -/
theorem mouse_scroll_spec_witness :
    get_mouse demoInput 1 = some demoMouse ∧
    input_mouse_scroll demoInput 1 0 5 =
      some ({ demoInput with devices := set_device_mask demoInput.devices 1 (scrollMask 0 5) },
            .motionEvent 1 (scrollMask 0 5)) ∧
    scrollMask 0 5 = ⟨.unset, .unset, .unset, .set 600⟩ :=
  ⟨by decide, mouse_scroll_spec demoInput 1 0 5 demoMouse (by decide), by decide⟩

/-- C5 counterexample: MouseScroll(1, 2^26, 0) posts slot 2 =
    -536870912, the wrapped 32-bit product, which differs from the
    mathematical product 2^26 * 120 = 8053063680 the claim states. -/
theorem mouse_scroll_overflow_cex :
    (input_mouse_scroll demoInput 1 67108864 0).map (fun r => r.2) =
      some (.motionEvent 1 ⟨.unset, .unset, .set (-536870912), .unset⟩)
    ∧ ((-536870912 : Int) ≠ 67108864 * 120) := by
  exact ⟨by decide, by decide⟩

/-- C1 (amended): the GetVideoInfo reply written to the socket is the
    reply tag followed by the five identifiers in the struct declaration
    order second_crtc, second_output, first_output, large_mode_id,
    small_mode_id, the identifiers being those video_get_info reports. -/
theorem getVideoInfo_wire_order (s : SysState) :
    (handle_message s .getVideoInfo 0).map (fun out => out.reply) =
      some (some [MT_GET_VIDEO_INFO_REPLY,
        (video_get_info s.video).1,
        (video_get_info s.video).2.2.1,
        (video_get_info s.video).2.1,
        (video_get_info s.video).2.2.2.2,
        (video_get_info s.video).2.2.2.1]) := rfl

/-- C1 counterexample: on concrete identifiers (second_crtc 10,
    first_output 20, second_output 21, small_mode_id 31, large_mode_id
    30) the words written are (9, 10, 21, 20, 30, 31), not the order
    (9, 10, 20, 21, 31, 30) the claim states. -/
theorem getVideoInfo_wire_order_cex :
    (handle_message demoState .getVideoInfo 0).map (fun out => out.reply) =
      some (some [9, 10, 21, 20, 30, 31])
    ∧ specClaimedGetVideoInfoOrder (video_get_info demoState.video) =
      [9, 10, 20, 21, 31, 30]
    ∧ ([9, 10, 21, 20, 30, 31] : List Nat) ≠ [9, 10, 20, 21, 31, 30] := by
  exact ⟨by decide, by decide, by decide⟩

/-- C2 (amended): input_remove_device only issues the asynchronous
    DeleteInputDeviceRequest and leaves the device list unchanged, so a
    lookup immediately after it still succeeds; and once an id is absent
    from the registry, every operation that looks it up hits the fatal
    assertion in get_device (modelled as none) rather than returning a
    recoverable error. -/
theorem remove_device_lookup (s : InputState) (id : Nat) :
    ((input_remove_device s id).map (fun i => i.devices) =
      (get_device s id).map (fun _ => s.devices))
    ∧ (get_device s id = none →
        input_mouse_move s id 0 0 = none
        ∧ input_mouse_scroll s id 0 0 = none
        ∧ input_touch_down s id 0 0 = none
        ∧ input_key_press s id 0 = none
        ∧ input_remove_device s id = none) := by
  constructor
  · cases h : get_device s id <;> simp [input_remove_device, h]
  · intro h
    simp [input_mouse_move, input_mouse_scroll, input_touch_down, input_key_press,
          input_remove_device, get_mouse, get_touch, get_keyboard, h]

/-- Witness for C2 at a registry where id 7 is absent. -/
theorem remove_device_lookup_witness :
    get_device init_input 7 = none
    ∧ input_mouse_move init_input 7 0 0 = none
    ∧ input_mouse_scroll init_input 7 0 0 = none
    ∧ input_touch_down init_input 7 0 0 = none
    ∧ input_key_press init_input 7 0 = none
    ∧ input_remove_device init_input 7 = none :=
  ⟨by decide, (remove_device_lookup init_input 7).2 (by decide)⟩

/-- C2 counterexample: CreateMouse (host id 5) then RemoveDevice(5): the
    device is still registered afterwards, and a following
    MouseMove(5, 2, 3) succeeds instead of failing with UnknownDevice. -/
theorem remove_device_race_cex :
    (run freshState [.msg .createMouse 5, .msg (.removeDevice 5) 0]).map
        (fun s => (get_device s.input 5).isSome) = some true
    ∧ (run freshState [.msg .createMouse 5, .msg (.removeDevice 5) 0,
        .msg (.mouseMove 5 2 3) 0]).isSome = true := by
  exact ⟨by decide, by decide⟩

/-- C3 (amended): the dispatcher aborts exactly when the read or the
    reply write returns at most 0; a short positive read or write passes
    the assert(... > 0) checks. -/
theorem dispatch_fatal_iff (s : SysState) (hostId : Nat) (readRet writeRet : Int) :
    (dispatch s readRet Msg.getVideoInfo hostId writeRet).isNone
      = (decide (readRet ≤ 0) || decide (writeRet ≤ 0)) := by
  by_cases hr : 0 < readRet
  · by_cases hw : 0 < writeRet
    · rw [decide_eq_false (by omega), decide_eq_false (by omega)]
      simp [dispatch, handle_message, hr, hw]
    · rw [decide_eq_false (by omega), decide_eq_true (by omega)]
      simp [dispatch, handle_message, hr, hw]
  · rw [decide_eq_true (by omega)]
    simp [dispatch, hr]

/-- C3 counterexample: a read of 4 of the 20 message bytes and a write
    of 4 of the 24 reply bytes pass both assertions and the message is
    processed normally, although the claim calls any short read or write
    fatal. -/
theorem dispatch_short_read_cex :
    (dispatch demoState 4 Msg.getVideoInfo 0 4).isSome = true
    ∧ (4 : Nat) < sizeof_Message ∧ (4 : Nat) < sizeof_GetVideoInfoReply := by
  exact ⟨by decide, by decide, by decide⟩

/-- Every successfully handled message leaves output 0 untouched. -/
theorem handle_message_output0 (s : SysState) (m : Msg) (hostId : Nat)
    (out : StepOut) (h : handle_message s m hostId = some out) :
    out.state.video.output0 = s.video.output0 := by
  cases m <;>
    simp only [handle_message, liftEvent, liftInput, Option.map_eq_some',
      Option.some.injEq] at h <;>
    obtain ⟨a, _, rfl⟩ := h <;>
    rfl

/-- Every successful stimulus step leaves output 0 untouched. -/
theorem stepCmd_output0 (s : SysState) (c : Cmd) (s' : SysState)
    (h : stepCmd s c = some s') : s'.video.output0 = s.video.output0 := by
  cases c with
  | msg m hostId =>
    simp only [stepCmd, Option.map_eq_some'] at h
    obtain ⟨out, hout, rfl⟩ := h
    exact handle_message_output0 s m hostId out hout
  | teardown id =>
    simp only [stepCmd, Option.some.injEq] at h
    subst h
    rfl

/-- Output 0 is invariant along every successful stimulus sequence. -/
theorem run_output0 (cmds : List Cmd) (s s' : SysState)
    (h : run s cmds = some s') : s'.video.output0 = s.video.output0 := by
  induction cmds generalizing s with
  | nil =>
    simp only [run, Option.some.injEq] at h
    subst h
    rfl
  | cons c rest ih =>
    simp only [run, Option.bind_eq_some] at h
    obtain ⟨s1, h1, h2⟩ := h
    rw [ih s1 h2, stepCmd_output0 s c s1 h1]

/-- C6: in every state reachable from module initialization, output 0's
    connected flag is true: screen_init sets it and no stimulus
    sequence (EnableSecondMonitor commands included) ever changes
    output 0. -/
theorem output0_always_connected (crtc0 crtc1 out0 out1 m1 m2 : Nat)
    (cmds : List Cmd) (s' : SysState)
    (h : run (initState crtc0 crtc1 out0 out1 m1 m2) cmds = some s') :
    s'.video.output0.connected = true := by
  rw [run_output0 cmds _ s' h]
  rfl

/-- Witness for C6: a concrete trace with two EnableSecondMonitor
    toggles and mouse traffic. -/
theorem output0_always_connected_witness :
    c6Final.video.output0.connected = true :=
  output0_always_connected 99 10 20 21 30 31 c6Demo c6Final (by decide)

/-- C7: with the two configured modes, video_get_info classifies the
    1024-wide mode's id as large_mode_id and the 800-wide mode's id as
    small_mode_id (exactly one each), and the GetVideoInfo handler
    leaves the state unchanged, so issuing the same query twice in a
    row yields identical identifiers. -/
theorem getVideoInfo_classification (s : SysState) (a b : Nat)
    (hm : s.video.modes = [⟨1024, a⟩, ⟨800, b⟩]) :
    video_get_info s.video =
      (s.video.output1.crtc_id, s.video.output0.output_id,
       s.video.output1.output_id, b, a)
    ∧ (handle_message s .getVideoInfo 0).map (fun out => out.state) = some s
    ∧ (handle_message s .getVideoInfo 0).bind
        (fun out => handle_message out.state .getVideoInfo 0)
      = handle_message s .getVideoInfo 0 := by
  refine ⟨?_, rfl, rfl⟩
  simp [video_get_info, hm, classify_modes]

/-- Witness for C7 at concrete host identifiers. -/
theorem getVideoInfo_classification_witness :
    video_get_info (initState 1 2 3 4 5 6).video = (2, 3, 4, 6, 5) :=
  (getVideoInfo_classification (initState 1 2 3 4 5 6) 5 6 rfl).1

/-- Storing a mask leaves every node's id and type as found by the
    registry scan unchanged. -/
theorem find_set_device_mask (l : List Device) (id : Nat) (m : ValuatorMask) (j : Nat) :
    ((set_device_mask l id m).find? (fun d => d.id == j)).map (fun d => (d.id, d.type)) =
    (l.find? (fun d => d.id == j)).map (fun d => (d.id, d.type)) := by
  induction l with
  | nil => rfl
  | cons d rest ih =>
    by_cases h1 : d.id = id
    · simp only [set_device_mask, if_pos h1]
      by_cases hj : (d.id == j) = true <;> simp [List.find?_cons, hj]
    · simp only [set_device_mask, if_neg h1]
      by_cases hj : (d.id == j) = true <;> simp [List.find?_cons, hj, ih]

/-- get_touch's success is unaffected by storing a mask and bumping the
    touch counter. -/
theorem get_touch_isSome_invariant (s : InputState) (id : Nat) (m : ValuatorMask)
    (c : Nat) (j : Nat) :
    (get_touch ⟨set_device_mask s.devices id m, c, s.nextInputId, s.pending⟩ j).isSome
      = (get_touch s j).isSome := by
  have h := find_set_device_mask s.devices id m j
  simp only [get_touch, get_device]
  cases hL : (set_device_mask s.devices id m).find? (fun d => d.id == j) with
  | none =>
    cases hR : s.devices.find? (fun d => d.id == j) with
    | none => rfl
    | some d => rw [hL, hR] at h; simp at h
  | some d' =>
    cases hR : s.devices.find? (fun d => d.id == j) with
    | none => rw [hL, hR] at h; simp at h
    | some d =>
      rw [hL, hR] at h
      simp only [Option.map_some', Option.some.injEq, Prod.mk.injEq] at h
      show (if d'.type = DevType.touch then some d' else none).isSome
        = (if d.type = DevType.touch then some d else none).isSome
      rw [h.2]
      by_cases ht : d.type = DevType.touch <;> simp [ht]

/-- Closed form for iterated touch-downs: while the picked devices stay
    valid touchscreens, every step succeeds and the shared counter
    advances by one per call modulo 2^32. -/
theorem iterDowns_spec (pick : Nat → Nat) (s : InputState)
    (hc : s.touchCounter < U32)
    (ht : ∀ k, (get_touch s (pick k)).isSome = true) :
    ∀ n, ∃ s', iterDowns pick s n = some s'
      ∧ s'.touchCounter = (s.touchCounter + n) % U32
      ∧ ∀ j, (get_touch s' j).isSome = (get_touch s j).isSome := by
  intro n
  induction n with
  | zero =>
    refine ⟨s, rfl, ?_, fun j => rfl⟩
    simp only [U32] at hc ⊢
    omega
  | succ n ih =>
    obtain ⟨s', hs', hcnt, hinv⟩ := ih
    have htn : (get_touch s' (pick n)).isSome = true := by rw [hinv]; exact ht n
    obtain ⟨d, hd⟩ := Option.isSome_iff_exists.mp htn
    have hdown : input_touch_down s' (pick n) 0 0 =
        some (s'.touchCounter,
          ⟨set_device_mask s'.devices (pick n)
             (valuator_mask_set (valuator_mask_set valuator_mask_zero 0 0) 1 0),
           (s'.touchCounter + 1) % U32, s'.nextInputId, s'.pending⟩,
          HostEvent.touchEvent (pick n) s'.touchCounter TouchKind.xiTouchBegin
            (some (valuator_mask_set (valuator_mask_set valuator_mask_zero 0 0) 1 0))) := by
      unfold input_touch_down
      rw [hd]
      rfl
    refine ⟨⟨set_device_mask s'.devices (pick n)
              (valuator_mask_set (valuator_mask_set valuator_mask_zero 0 0) 1 0),
            (s'.touchCounter + 1) % U32, s'.nextInputId, s'.pending⟩, ?_, ?_, ?_⟩
    · simp only [iterDowns, hs', hdown, Option.map_some']
    · show (s'.touchCounter + 1) % U32 = (s.touchCounter + (n + 1)) % U32
      rw [hcnt]
      simp only [U32]
      omega
    · intro j
      rw [get_touch_isSome_invariant s' (pick n) _ ((s'.touchCounter + 1) % U32) j]
      exact hinv j

/-- The contact id returned by the down call of index n is the initial
    counter plus n, modulo 2^32. -/
theorem nthDownId_closed (pick : Nat → Nat) (s : InputState)
    (hc : s.touchCounter < U32)
    (ht : ∀ k, (get_touch s (pick k)).isSome = true) (n : Nat) :
    nthDownId pick s n = some ((s.touchCounter + n) % U32) := by
  obtain ⟨s', hs', hcnt, hinv⟩ := iterDowns_spec pick s hc ht n
  have htn : (get_touch s' (pick n)).isSome = true := by rw [hinv]; exact ht n
  obtain ⟨d, hd⟩ := Option.isSome_iff_exists.mp htn
  simp only [nthDownId, hs', input_touch_down, hd, Option.map_some']
  rw [hcnt]

/-- C4 (amended): starting from TOUCH_ID = 1, the down call of index n
    (0-based, on any mix of touch devices) returns contact id n + 1 for
    every n with n + 1 below 2^32, so the ids are exactly 1, 2, 3, ...
    shared across all touch devices and strictly increasing until the
    32-bit counter wraps around. -/
theorem touch_id_sequence (s : InputState) (pick : Nat → Nat)
    (hc : s.touchCounter = 1)
    (ht : ∀ k, (get_touch s (pick k)).isSome = true)
    (n : Nat) (hn : n + 1 < U32) :
    nthDownId pick s n = some (n + 1) := by
  have h := nthDownId_closed pick s (by rw [hc]; decide) ht n
  rw [h, hc]
  congr 1
  simp only [U32] at hn ⊢
  omega

/-- Witness for C4: alternating downs across the two touchscreens of
    c4Input return ids 1 then 2. -/
theorem touch_id_sequence_witness :
    nthDownId (fun k => if k % 2 = 0 then 1 else 2) c4Input 0 = some 1
    ∧ nthDownId (fun k => if k % 2 = 0 then 1 else 2) c4Input 1 = some 2 :=
  ⟨touch_id_sequence c4Input _ rfl (fun k => by
      rcases Nat.mod_two_eq_zero_or_one k with h | h <;> simp [h] <;> decide)
    0 (by decide),
   touch_id_sequence c4Input _ rfl (fun k => by
      rcases Nat.mod_two_eq_zero_or_one k with h | h <;> simp [h] <;> decide)
    1 (by decide)⟩

/-- C4 counterexample: the 32-bit contact counter wraps: the down of
    index 2^32 - 2 returns id 2^32 - 1 but the next down returns id 0,
    so the id sequence is neither 1, 2, 3, ... nor strictly increasing
    over the whole process lifetime. -/
theorem touch_id_wrap_cex :
    nthDownId (fun _ => 1) c4Input (U32 - 2) = some (U32 - 1)
    ∧ nthDownId (fun _ => 1) c4Input (U32 - 1) = some 0
    ∧ (0 : Nat) < U32 - 1 := by
  have h1 := nthDownId_closed (fun _ => 1) c4Input (by decide)
    (fun k => by show (get_touch c4Input 1).isSome = true; decide) (U32 - 2)
  have h2 := nthDownId_closed (fun _ => 1) c4Input (by decide)
    (fun k => by show (get_touch c4Input 1).isSome = true; decide) (U32 - 1)
  refine ⟨?_, ?_, by decide⟩
  · rw [h1]
    decide
  · rw [h2]
    decide

end Winit
